import Mathlib

/-!
Shallow embedding of `sicd-rs` (`src/lib.rs`): SICD version resolution,
metadata dispatch, the byte-buffer-to-complex-array decoder, and product
assembly, together with theorems settling the specification claims.

Conventions of the embedding:
* Byte buffers are `List Nat` (each entry a byte value).
* Rust panics (`unwrap` on `Err`/`None`, out-of-bounds indexing) are modelled
  explicitly: `Option` for functions whose only failure mode is a panic, and
  the `Outcome` type (`ok` / `err` / `panic`) where the Rust code mixes
  returned `Result` errors with panics.  A panic caused by `Result::unwrap`
  carries the unwrapped error as its payload, as the Rust panic message does.
* External collaborators (the NITF container parser, and the `quick_xml`
  deserializers for the version-specific metadata schemas, which the spec
  declares out of scope and "treated as opaque deserialization targets")
  enter as explicit data (`Nitf` structure) and function parameters
  (`gx`, `p40`, `p50`, `p1`).
-/

set_option maxRecDepth 100000

namespace SicdRs

/-- Embeds the `SicdError` enum of `src/lib.rs` (variants `VersionError`
and `Unimpl`). -/
inductive SicdError where
  | VersionError (s : String)
  | Unimpl (s : String)
deriving DecidableEq, Repr

/-- Embeds the `SicdVersion` enum of `src/lib.rs`. -/
inductive SicdVersion where
  | V0_3_1
  | V0_4_0
  | V0_4_1
  | V0_5_0
  | V1_0_0
  | V1_0_1
  | V1_1_0
  | V1_2_0
  | V1_2_1
  | V1_3_0
deriving DecidableEq, Repr

/-- The characters of the fixed URN marker `"urn:SICD:"`. -/
def urnChars : List Char := ['u', 'r', 'n', ':', 'S', 'I', 'C', 'D', ':']

/-- Removes every (leftmost-first, non-overlapping) occurrence of
`"urn:SICD:"` from a character list.  This is the semantics of the Rust
expression `s.split("urn:SICD:").collect::<String>()` in
`SicdVersion::from_str` (line 101): `split` cuts the string at every
non-overlapping occurrence of the pattern scanning left to right and
`collect` concatenates the remaining pieces. -/
def stripUrnAux : List Char → List Char
  | 'u' :: 'r' :: 'n' :: ':' :: 'S' :: 'I' :: 'C' :: 'D' :: ':' :: rest =>
      stripUrnAux rest
  | c :: rest => c :: stripUrnAux rest
  | [] => []

/-- String wrapper for `stripUrnAux`. -/
def stripUrn (s : String) : String := ⟨stripUrnAux s.data⟩

/-- Embeds `SicdVersion::from_str` (lines 100–114): delete every occurrence
of `"urn:SICD:"`, then match the result against the ten known version
strings; on no match, return `VersionError` carrying the original input. -/
def SicdVersion.from_str (s : String) : Except SicdError SicdVersion :=
  match stripUrn s with
  | "0.3.1" => .ok .V0_3_1
  | "0.4.0" => .ok .V0_4_0
  | "0.4.1" => .ok .V0_4_1
  | "0.5.0" => .ok .V0_5_0
  | "1.0.0" => .ok .V1_0_0
  | "1.0.1" => .ok .V1_0_1
  | "1.1.0" => .ok .V1_1_0
  | "1.2.0" => .ok .V1_2_0
  | "1.2.1" => .ok .V1_2_1
  | "1.3.0" => .ok .V1_3_0
  | _ => .error (.VersionError s)

/-! ## The byte decoder (`ImageData::initialize`) -/

/-- The value denoted by an IEEE-754 binary32 bit pattern: a finite value,
a signed infinity, or NaN (all NaN bit patterns are identified, as float
equality never holds between NaNs).  Every finite binary32 value is an
integer multiple of `2 ^ (-149)` (the smallest subnormal); `finite units`
denotes the real number `units * 2 ^ (-149)`, an exact and injective
representation that keeps equality kernel-computable.  This is the meaning
of Rust's `f32::from_be_bytes`, which reinterprets four bytes, in
big-endian order, as the bit pattern of an `f32`. -/
inductive F32Val where
  | finite (units : ℤ)
  | inf (neg : Bool)
  | nan
deriving DecidableEq, Repr

/-- `2 ^ z` as a rational, for an integer exponent `z`. -/
def pow2 (z : ℤ) : ℚ :=
  if 0 ≤ z then ((2 ^ z.toNat : ℕ) : ℚ) else (((2 ^ (-z).toNat : ℕ) : ℚ))⁻¹

/-- The rational value denoted by an `F32Val`, when finite. -/
def F32Val.val : F32Val → Option ℚ
  | .finite units => some ((units : ℚ) * pow2 (-149))
  | _ => none

/-- IEEE-754 binary32 interpretation of a 32-bit word `w`:
sign bit 31, biased exponent bits 30–23, fraction bits 22–0.
For a subnormal (`expo = 0`) the value is `frac * 2 ^ (-149)`, hence
`frac` units; for a normal the value is
`(2 ^ 23 + frac) * 2 ^ (expo - 150)`, hence
`(2 ^ 23 + frac) * 2 ^ (expo - 1)` units. -/
def f32_of_bits (w : ℕ) : F32Val :=
  let sign : ℕ := w / 2 ^ 31 % 2
  let expo : ℕ := w / 2 ^ 23 % 2 ^ 8
  let frac : ℕ := w % 2 ^ 23
  if expo = 255 then
    if frac = 0 then .inf (sign = 1) else .nan
  else
    let units : ℤ :=
      if expo = 0 then (frac : ℤ)
      else (((2 ^ 23 + frac) * 2 ^ (expo - 1) : ℕ) : ℤ)
    .finite (if sign = 1 then -units else units)

/-- The 32-bit word formed by four bytes in big-endian order. -/
def beWord (b0 b1 b2 b3 : ℕ) : ℕ :=
  ((b0 * 256 + b1) * 256 + b2) * 256 + b3

/-- Splits a byte buffer into consecutive 8-byte spans, returning for each
the two big-endian 32-bit words (real bits, imaginary bits); a trailing
remainder of fewer than 8 bytes is dropped.  This embeds the reinterpretation
of the byte slice as `new_size = len / 8` values of type `[[u8; 4]; 2]`
(lines 65–69 of `src/lib.rs`): exactly the first `8 * (len / 8)` bytes are
viewed, in order. -/
def chunk8 : List ℕ → List (ℕ × ℕ)
  | b0 :: b1 :: b2 :: b3 :: b4 :: b5 :: b6 :: b7 :: rest =>
      (beWord b0 b1 b2 b3, beWord b4 b5 b6 b7) :: chunk8 rest
  | _ => []

/-- Embeds the `ImageData` struct: declared dimensions and the decoded
row-major 2-D array of complex samples (real, imaginary).  The retained
fields `byte_slice` and `new_size` of the Rust struct are decode-time
intermediates and are not needed by any claim. -/
structure ImageData where
  n_rows : ℕ
  n_cols : ℕ
  array : List (List (F32Val × F32Val))
deriving DecidableEq, Repr

/-- Embeds `ImageData::initialize` (lines 60–81).  The code computes
`new_size = slice.len() / 8`, views the first `new_size` 8-byte spans, and
calls `ArrayView2::from_shape((n_rows, n_cols), float_slice).unwrap()`,
which panics unless `n_rows * n_cols = new_size`; `none` models that panic.
On success each output cell `(r, c)` receives the big-endian floats of span
`r * n_cols + c` (row-major, ndarray standard order). -/
def ImageData.fromBytes (slice : List ℕ) (nrows ncols : ℕ) :
    Option ImageData :=
  let new_size := slice.length / 8
  if nrows * ncols = new_size then
    let words := chunk8 slice
    some
      { n_rows := nrows
        n_cols := ncols
        array :=
          (List.range nrows).map fun r =>
            (List.range ncols).map fun c =>
              let w := words.getD (r * ncols + c) (0, 0)
              (f32_of_bits w.1, f32_of_bits w.2) }
  else none

/-! ## Metadata dispatch (`SicdMeta`, `parse_sicd`) and assembly
(`Sicd::from_file`, `read_sicd`) -/

/-- Modelled from the spec: the version-specific metadata schemas
(`dep::v0_4_0::SicdMeta`, whose field layout is out of scope and "treated
as opaque deserialization targets reached via a byte/text-to-struct
interface").  The opaque deserialized structure is represented abstractly
by a wrapper; which texts deserialize to which structure is supplied as an
explicit parameter (`p40` below) wherever it matters. -/
structure MetaV0_4_0 where
  payload : String
deriving DecidableEq, Repr

/-- Modelled from the spec: the opaque `dep::v0_5_0::SicdMeta` schema
(see `MetaV0_4_0`). -/
structure MetaV0_5_0 where
  payload : String
deriving DecidableEq, Repr

/-- Modelled from the spec: the opaque `v1_3_0::SicdMeta` schema shared by
the whole 1.x line (see `MetaV0_4_0`). -/
structure MetaV1 where
  payload : String
deriving DecidableEq, Repr

/-- Embeds the `SicdMeta` enum (lines 117–124): `V0_3_1` and `V0_4_1` are
empty "not implemented" markers; the other variants hold the deserialized
version-specific structure. -/
inductive SicdMeta where
  | V0_3_1
  | V0_4_0 (m : MetaV0_4_0)
  | V0_4_1
  | V0_5_0 (m : MetaV0_5_0)
  | V1 (m : MetaV1)
deriving DecidableEq, Repr

/-- Embeds `SicdMeta::get_v0_3_1_meta` (lines 127–129): always returns the
`Unimpl` error, for any stored variant. -/
def SicdMeta.get_v0_3_1_meta (_ : SicdMeta) : SicdError := .Unimpl "0.3.1"

/-- Embeds `SicdMeta::get_v0_4_0_meta` (lines 130–135). -/
def SicdMeta.get_v0_4_0_meta : SicdMeta → Option MetaV0_4_0
  | .V0_4_0 m => some m
  | _ => none

/-- Embeds `SicdMeta::get_v0_4_1_meta` (lines 136–138): always returns the
`Unimpl` error, for any stored variant. -/
def SicdMeta.get_v0_4_1_meta (_ : SicdMeta) : SicdError := .Unimpl "0.4.1"

/-- Embeds `SicdMeta::get_v0_5_0_meta` (lines 139–144). -/
def SicdMeta.get_v0_5_0_meta : SicdMeta → Option MetaV0_5_0
  | .V0_5_0 m => some m
  | _ => none

/-- Embeds `SicdMeta::get_v1_meta` (lines 145–150). -/
def SicdMeta.get_v1_meta : SicdMeta → Option MetaV1
  | .V1 m => some m
  | _ => none

/-- A Rust panic, as an explicit outcome.  `unwrapErr e` is the panic of
`Result::unwrap` applied to `Err(e)`; the panic message carries `e`, so
the underlying error is part of the abort.  `otherPanic` covers the
remaining panics (failed `unwrap` of a deserializer or of UTF-8 decoding,
out-of-bounds indexing, `ArrayView2::from_shape(..).unwrap()`). -/
inductive PanicInfo where
  | unwrapErr (e : SicdError)
  | otherPanic (msg : String)
deriving DecidableEq, Repr

/-- The outcome of a Rust computation that may return a value, return an
error, or panic. -/
inductive Outcome (α : Type) where
  | ok (a : α)
  | err (e : SicdError)
  | panic (p : PanicInfo)
deriving DecidableEq, Repr

/-- The type of the external deserializer parameters: which metadata texts
deserialize into which opaque structure (`none` = the deserializer fails,
so the `.unwrap()` on it panics). -/
def Deser (α : Type) : Type := String → Option α

/-- Embeds the version dispatch `match` of `parse_sicd` (lines 208–221) as
a function of the resolved version and the metadata text.  `p40`, `p50`,
`p1` are the external `quick_xml` deserializers for the three implemented
schema targets.  Each `from_str(sicd_str).unwrap()` panics when its
deserializer fails; the `V0_3_1` / `V0_4_1` arms return `Err(Unimpl(..))`
without touching any deserializer. -/
def dispatch (p40 : Deser MetaV0_4_0) (p50 : Deser MetaV0_5_0)
    (p1 : Deser MetaV1) (v : SicdVersion) (sicd_str : String) :
    Outcome (SicdVersion × SicdMeta) :=
  match v with
  | .V0_3_1 => .err (.Unimpl "V0_3_1")
  | .V0_4_0 =>
      match p40 sicd_str with
      | some m => .ok (.V0_4_0, .V0_4_0 m)
      | none => .panic (.otherPanic "deserialization failed")
  | .V0_4_1 => .err (.Unimpl "V0_4_1")
  | .V0_5_0 =>
      match p50 sicd_str with
      | some m => .ok (.V0_5_0, .V0_5_0 m)
      | none => .panic (.otherPanic "deserialization failed")
  | other =>
      match p1 sicd_str with
      | some m => .ok (other, .V1 m)
      | none => .panic (.otherPanic "deserialization failed")

/-- Embeds `parse_sicd` (lines 203–222).  `gx` is the external `quick_xml`
extraction of the root element's `@xmlns` attribute (the `VersionGetter`
deserialization, line 205), whose `.unwrap()` panics when it fails; the
`.unwrap()` on `SicdVersion::from_str` (line 206) panics with the
`VersionError` when the token is unrecognized. -/
def parse_sicd (gx : Deser String) (p40 : Deser MetaV0_4_0)
    (p50 : Deser MetaV0_5_0) (p1 : Deser MetaV1) (sicd_str : String) :
    Outcome (SicdVersion × SicdMeta) :=
  match gx sicd_str with
  | none => .panic (.otherPanic "VersionGetter deserialization failed")
  | some tok =>
      match SicdVersion.from_str tok with
      | .error e => .panic (.unwrapErr e)
      | .ok v => dispatch p40 p50 p1 v sicd_str

/-- The ten known version strings, paired with their `SicdVersion`, in the
order of the `match` arms of `SicdVersion::from_str`. -/
def versionTable : List (String × SicdVersion) :=
  [("0.3.1", .V0_3_1), ("0.4.0", .V0_4_0), ("0.4.1", .V0_4_1),
   ("0.5.0", .V0_5_0), ("1.0.0", .V1_0_0), ("1.0.1", .V1_0_1),
   ("1.1.0", .V1_1_0), ("1.2.0", .V1_2_0), ("1.2.1", .V1_2_1),
   ("1.3.0", .V1_3_0)]

/-- The ten known version strings. -/
def knownTokens : List String := versionTable.map Prod.fst

/-- Strips one leading occurrence of `"urn:SICD:"`, leaving any other
input unchanged. -/
def stripUrnLeading (s : String) : String :=
  match s.data with
  | 'u' :: 'r' :: 'n' :: ':' :: 'S' :: 'I' :: 'C' :: 'D' :: ':' :: rest =>
      ⟨rest⟩
  | l => ⟨l⟩

/-- Follows the spec's words for the version resolver (§4.1, claim C8):
"Normalizes the token (strips a fixed URN prefix) and performs exact-match
lookup against the fixed table of ten known version strings", failing with
`VersionError` carrying the offending token.  Stated for comparison with
`SicdVersion.from_str`, the embedding of the source. -/
def resolveSpec (s : String) : Except SicdError SicdVersion :=
  match versionTable.lookup (stripUrnLeading s) with
  | some v => .ok v
  | none => .error (.VersionError s)

/-- The amended characterization of the resolver: delete every occurrence
of `"urn:SICD:"` anywhere in the token (not only a leading prefix), then
exact-match lookup in the fixed table, failing with `VersionError`
carrying the original token. -/
def resolveAmended (s : String) : Except SicdError SicdVersion :=
  match versionTable.lookup (stripUrn s) with
  | some v => .ok v
  | none => .error (.VersionError s)

/-- Whether a version lies in the 1.x line (1.0.0 through 1.3.0), i.e. is
handled by the catch-all `other` arm of `parse_sicd`. -/
def isV1Range : SicdVersion → Bool
  | .V1_0_0 | .V1_0_1 | .V1_1_0 | .V1_2_0 | .V1_2_1 | .V1_3_0 => true
  | _ => false

/-- Forgets the version component of a dispatch outcome, keeping the
metadata and the error/panic cases: the "result modulo the version tag". -/
def metaPart : Outcome (SicdVersion × SicdMeta) → Outcome SicdMeta
  | .ok (_, m) => .ok m
  | .err e => .err e
  | .panic p => .panic p

/-- One image segment of the container: its raw data and the declared
row/column counts of its header (`nrows.val`, `ncols.val`). -/
structure ImageSegment where
  data : List ℕ
  nrows : ℕ
  ncols : ℕ
deriving DecidableEq, Repr

/-- Modelled from the spec: the NITF container collaborator ("the container
format's own segment framing, header parsing, and file I/O" are out of
scope; it "yields, per image segment, a byte buffer plus declared
row/column counts, and, for metadata, a raw text blob", plus "a total
declared image-segment count").  `dataExtensionSegments` holds each data
extension segment's payload already decoded as text (`from_utf8` of line
177); `numi` is the header's declared image count `numi.val`. -/
structure Nitf where
  dataExtensionSegments : List String
  numi : ℕ
  imageSegments : List ImageSegment
deriving DecidableEq, Repr

/-- The decode loop body of `Sicd::from_file` (lines 181–187) for segment
index `i`: index into `image_segments` (panics when out of bounds) and run
`ImageData::initialize` (panics on shape mismatch); the decoded value
`tmp` is dropped. -/
def decodeSeg (nitf : Nitf) (i : ℕ) : Option ImageData :=
  match nitf.imageSegments.get? i with
  | some seg => ImageData.fromBytes seg.data seg.nrows seg.ncols
  | none => none

/-- Runs `decodeSeg` for `i = 0, 1, …, n - 1`, discarding each decoded
image exactly as the loop in `Sicd::from_file` does; `none` models a panic
at some index. -/
def decodeLoop (nitf : Nitf) : ℕ → Option Unit
  | 0 => some ()
  | n + 1 =>
      match decodeLoop nitf n with
      | none => none
      | some _ =>
          match decodeSeg nitf n with
          | some _ => some ()
          | none => none

/-- Embeds the `Sicd` struct (lines 38–48): the container handle, parsed
metadata, resolved version, and the image-data vector.  The private
`file` handle adds nothing observable and is omitted. -/
structure Sicd where
  nitf : Nitf
  meta : SicdMeta
  version : SicdVersion
  image_data : List ImageData
deriving DecidableEq, Repr

/-- Embeds `Sicd::from_file` (lines 175–194): take the first data
extension segment's text (indexing `[0]` panics when there is none), run
`parse_sicd` and `.unwrap()` it (both its `Err` returns and its panics
abort), run the decode loop over `numi` segments — and return the Sicd
with `image_data` still the empty vector built on line 180, the loop
having discarded every decoded image. -/
def Sicd.from_file (gx : Deser String) (p40 : Deser MetaV0_4_0)
    (p50 : Deser MetaV0_5_0) (p1 : Deser MetaV1) (nitf : Nitf) :
    Outcome Sicd :=
  match nitf.dataExtensionSegments.head? with
  | none => .panic (.otherPanic "index out of bounds")
  | some sicd_str =>
      match parse_sicd gx p40 p50 p1 sicd_str with
      | .panic p => .panic p
      | .err e => .panic (.unwrapErr e)
      | .ok (version, meta) =>
          match decodeLoop nitf nitf.numi with
          | none => .panic (.otherPanic "decode loop panicked")
          | some _ =>
              .ok { nitf := nitf, meta := meta, version := version,
                    image_data := [] }

/-- Embeds `read_sicd` (lines 169–172): open the file (out of scope) and
delegate to `Sicd::from_file`. -/
def read_sicd (gx : Deser String) (p40 : Deser MetaV0_4_0)
    (p50 : Deser MetaV0_5_0) (p1 : Deser MetaV1) (nitf : Nitf) :
    Outcome Sicd :=
  Sicd.from_file gx p40 p50 p1 nitf


/-! ## Concrete containers, deserializers and buffers used by the witness
theorems and concrete evaluations -/

/-- A sample metadata text declaring the 1.3.0 namespace. -/
def exText : String := "<SICD xmlns=\x22urn:SICD:1.3.0\x22></SICD>"

/-- A sample `@xmlns` extractor that finds the token `"urn:SICD:1.3.0"`. -/
def gxEx : Deser String := fun _ => some "urn:SICD:1.3.0"

/-- A sample `@xmlns` extractor that finds the unrecognized token
`"2.0.0"`. -/
def gxBad : Deser String := fun _ => some "2.0.0"

/-- A 0.4.0 deserializer that always fails. -/
def p40None : Deser MetaV0_4_0 := fun _ => none

/-- A 0.5.0 deserializer that always fails. -/
def p50None : Deser MetaV0_5_0 := fun _ => none

/-- A 1.x deserializer that always succeeds. -/
def p1Ex : Deser MetaV1 := fun s => some ⟨s⟩

/-- A valid 1×1 image segment: 8 bytes encoding the complex sample
`1.0 + 2.0i` as two big-endian floats. -/
def exSeg : ImageSegment := ⟨[0x3F, 0x80, 0, 0, 0x40, 0, 0, 0], 1, 1⟩

/-- A container with valid 1.3.0 metadata and three valid image
segments, declaring `numi = 3`. -/
def exNitf : Nitf := ⟨[exText], 3, [exSeg, exSeg, exSeg]⟩

/-- A 32-byte buffer encoding four complex values as big-endian float
pairs in row-major 2×2 order:
`(1.0, 2.0)`, `(-3.5, 0.25)` in row 0 and `(5.0, -1.0)`, `(0.5, 100.0)`
in row 1 (bit patterns `3F800000`/`40000000`, `C0600000`/`3E800000`,
`40A00000`/`BF800000`, `3F000000`/`42C80000`). -/
def exBuf : List ℕ :=
  [0x3F, 0x80, 0, 0, 0x40, 0, 0, 0,
   0xC0, 0x60, 0, 0, 0x3E, 0x80, 0, 0,
   0x40, 0xA0, 0, 0, 0xBF, 0x80, 0, 0,
   0x3F, 0, 0, 0, 0x42, 0xC8, 0, 0]

/-! ## Helper lemmas -/

/-- Span `i` of `chunk8 l` consists of the two big-endian words of the 8
bytes found at offset `8 * i` of `l`, whenever those 8 bytes exist. -/
theorem chunk8_getD (i : ℕ) (l : List ℕ) (h : 8 * i + 8 ≤ l.length) :
    ∃ b0 b1 b2 b3 b4 b5 b6 b7 tail,
      l.drop (8 * i) = b0 :: b1 :: b2 :: b3 :: b4 :: b5 :: b6 :: b7 :: tail ∧
      (chunk8 l).getD i (0, 0) = (beWord b0 b1 b2 b3, beWord b4 b5 b6 b7) := by
  induction i generalizing l with
  | zero =>
    rcases l with _ | ⟨b0, l⟩; · simp at h
    rcases l with _ | ⟨b1, l⟩; · simp at h
    rcases l with _ | ⟨b2, l⟩; · simp at h
    rcases l with _ | ⟨b3, l⟩; · simp at h
    rcases l with _ | ⟨b4, l⟩; · simp at h
    rcases l with _ | ⟨b5, l⟩; · simp at h
    rcases l with _ | ⟨b6, l⟩; · simp at h
    rcases l with _ | ⟨b7, l⟩; · simp at h
    exact ⟨b0, b1, b2, b3, b4, b5, b6, b7, l, rfl, rfl⟩
  | succ i ih =>
    rcases l with _ | ⟨b0, l⟩; · simp at h
    rcases l with _ | ⟨b1, l⟩; · simp at h
    rcases l with _ | ⟨b2, l⟩; · simp at h
    rcases l with _ | ⟨b3, l⟩; · simp at h
    rcases l with _ | ⟨b4, l⟩; · simp at h
    rcases l with _ | ⟨b5, l⟩; · simp at h
    rcases l with _ | ⟨b6, l⟩; · simp at h
    rcases l with _ | ⟨b7, l⟩; · simp at h
    have h' : 8 * i + 8 ≤ l.length := by simp at h; omega
    obtain ⟨c0, c1, c2, c3, c4, c5, c6, c7, tail, hd, hv⟩ := ih l h'
    refine ⟨c0, c1, c2, c3, c4, c5, c6, c7, tail, ?_, ?_⟩
    · have e : 8 * (i + 1) = 8 * i + 8 := by ring
      rw [e, ← List.drop_drop]
      simpa using hd
    · simpa [chunk8, List.getD_cons_succ] using hv

/-! ## Claim theorems -/

/-- Claim C1 (code bug, concrete evaluation): assembling the container
`exNitf` — valid 1.3.0 metadata, three valid image segments, declared
image-segment count 3 — succeeds, yet the returned product's `image_data`
is the empty list rather than 3 decoded images in segment order: the loop
in `Sicd::from_file` decodes each segment into `tmp` and discards it, and
the vector created on line 180 is returned untouched. -/
theorem c1_assembly_drops_images :
    Sicd.from_file gxEx p40None p50None p1Ex exNitf =
      .ok ⟨exNitf, .V1 ⟨exText⟩, .V1_3_0, []⟩ ∧
    exNitf.numi = 3 ∧ (3 : ℕ) ≠ 0 :=
  ⟨by rfl, rfl, by decide⟩

/-- Claim C2 (code bug, concrete evaluation): `ImageData::initialize` has
no `ShapeMismatch` error (the code's error enum has only `VersionError`
and `Unimpl`).  With `rows = cols = 1`, a buffer of length
`rows*cols*8 - 1 = 7` makes the decode panic (`from_shape(..).unwrap()`)
instead of failing with a structured error, and a buffer of length 11
silently drops its 3 trailing bytes and decodes successfully instead of
failing at all. -/
theorem c2_no_shape_mismatch_error :
    ImageData.fromBytes (List.replicate 7 0) 1 1 = none ∧
    ImageData.fromBytes (List.replicate 11 0) 1 1 =
      some ⟨1, 1, [[(.finite 0, .finite 0)]]⟩ ∧
    (7 : ℕ) ≠ 1 * 1 * 8 ∧ (11 : ℕ) ≠ 1 * 1 * 8 := by
  refine ⟨by decide, by decide, by decide, by decide⟩

/-- Claim C3, counterexample: the input token `"1.0.0urn:SICD:"` is not
one of the ten known version tokens, yet the resolver returns
`Ok(V1_0_0)` instead of failing with a `VersionError` — the `split` +
`collect` in `SicdVersion::from_str` deletes the URN marker anywhere in
the token, not only as a prefix. -/
theorem c3_counterexample :
    SicdVersion.from_str "1.0.0urn:SICD:" = .ok .V1_0_0 ∧
    "1.0.0urn:SICD:" ∉ knownTokens :=
  ⟨by rfl, by decide⟩

/-- Claim C3, amended: for each of the ten known version tokens the
resolver returns the corresponding VersionId; for every input token whose
text after deleting every occurrence of `"urn:SICD:"` is not one of the
ten known version strings, it fails with a `VersionError` carrying that
input token verbatim. -/
theorem c3_resolver_amended :
    (∀ p ∈ versionTable, SicdVersion.from_str p.1 = .ok p.2) ∧
    (∀ s : String, stripUrn s ∉ knownTokens →
      SicdVersion.from_str s = .error (.VersionError s)) := by
  constructor
  · intro p hp
    fin_cases hp <;> rfl
  · intro s hs
    unfold SicdVersion.from_str
    split
    all_goals first
      | rfl
      | (exfalso; apply hs; simp_all [knownTokens, versionTable])

/-- Witness for C3's amended theorem: instantiated at the known token
`"0.3.1"` and at the unknown token `"2.0.0"`. -/
theorem c3_witness :
    (("0.3.1", SicdVersion.V0_3_1) ∈ versionTable ∧
      SicdVersion.from_str "0.3.1" = .ok .V0_3_1) ∧
    (stripUrn "2.0.0" ∉ knownTokens ∧
      SicdVersion.from_str "2.0.0" = .error (.VersionError "2.0.0")) :=
  ⟨⟨by decide, c3_resolver_amended.1 ("0.3.1", SicdVersion.V0_3_1) (by decide)⟩,
   ⟨by decide, c3_resolver_amended.2 "2.0.0" (by decide)⟩⟩

/-- Claim C4: a container whose metadata declares an unrecognized
namespace token makes the read entry point abort carrying the
`VersionError` (the `.unwrap()` panic on line 206 whose payload is that
error) and produce no Product; and conversely any successfully returned
product implies that resolution, dispatch and every per-segment decode
all succeeded — no failure is swallowed or defaulted. -/
theorem c4_error_propagation :
    (∀ (gx : Deser String) (p40 : Deser MetaV0_4_0) (p50 : Deser MetaV0_5_0)
        (p1 : Deser MetaV1) (nitf : Nitf) (mtext tok : String),
      nitf.dataExtensionSegments.head? = some mtext →
      gx mtext = some tok →
      SicdVersion.from_str tok = .error (.VersionError tok) →
      Sicd.from_file gx p40 p50 p1 nitf =
        .panic (.unwrapErr (.VersionError tok))) ∧
    (∀ (gx : Deser String) (p40 : Deser MetaV0_4_0) (p50 : Deser MetaV0_5_0)
        (p1 : Deser MetaV1) (nitf : Nitf) (s : Sicd),
      Sicd.from_file gx p40 p50 p1 nitf = .ok s →
      ∃ mtext, nitf.dataExtensionSegments.head? = some mtext ∧
        parse_sicd gx p40 p50 p1 mtext = .ok (s.version, s.meta) ∧
        decodeLoop nitf nitf.numi ≠ none) := by
  constructor
  · intro gx p40 p50 p1 nitf mtext tok h1 h2 h3
    simp only [Sicd.from_file, parse_sicd, h1, h2, h3]
  · intro gx p40 p50 p1 nitf s h
    rcases hdes : nitf.dataExtensionSegments.head? with _ | mtext
    · simp only [Sicd.from_file, hdes] at h
      simp at h
    · simp only [Sicd.from_file, hdes] at h
      rcases hp : parse_sicd gx p40 p50 p1 mtext with vm | e | p
      · obtain ⟨v, m⟩ := vm
        simp only [hp] at h
        rcases hdl : decodeLoop nitf nitf.numi with _ | u
        · simp only [hdl] at h
          simp at h
        · cases u
          simp only [hdl, Outcome.ok.injEq] at h
          subst h
          exact ⟨mtext, rfl, hp, by simp [hdl]⟩
      · simp only [hp] at h
        simp at h
      · simp only [hp] at h
        simp at h

/-- Witness for C4: a container whose extractor yields the unrecognized
token `"2.0.0"` makes `Sicd::from_file` abort with the `VersionError`. -/
theorem c4_witness :
    (exNitf.dataExtensionSegments.head? = some exText ∧
      gxBad exText = some "2.0.0" ∧
      SicdVersion.from_str "2.0.0" = .error (.VersionError "2.0.0")) ∧
    Sicd.from_file gxBad p40None p50None p1Ex exNitf =
      .panic (.unwrapErr (.VersionError "2.0.0")) :=
  ⟨⟨rfl, rfl, by rfl⟩,
   c4_error_propagation.1 gxBad p40None p50None p1Ex exNitf exText "2.0.0"
     rfl rfl (by rfl)⟩

/-- Claim C5: for every buffer of length `rows * cols * 8` the decode
succeeds and fills cell `(r, c)` of the row-major output with the two
values obtained by taking the 8-byte span at offset
`8 * (r * cols + c)` of the buffer and reading its first 4 bytes as the
big-endian IEEE-754 single-precision real part and its next 4 bytes as
the big-endian imaginary part. -/
theorem c5_decode_layout (buf : List ℕ) (rows cols r c : ℕ)
    (hlen : buf.length = rows * cols * 8) (hr : r < rows) (hc : c < cols) :
    ∃ img b0 b1 b2 b3 b4 b5 b6 b7 tail,
      ImageData.fromBytes buf rows cols = some img ∧
      img.n_rows = rows ∧ img.n_cols = cols ∧ img.array.length = rows ∧
      buf.drop (8 * (r * cols + c)) =
        b0 :: b1 :: b2 :: b3 :: b4 :: b5 :: b6 :: b7 :: tail ∧
      (img.array.getD r []).getD c (.nan, .nan) =
        (f32_of_bits (beWord b0 b1 b2 b3), f32_of_bits (beWord b4 b5 b6 b7)) := by
  have hsz : buf.length / 8 = rows * cols := by
    rw [hlen]; exact Nat.mul_div_cancel _ (by norm_num)
  have hcell : r * cols + c < rows * cols := by
    calc r * cols + c < r * cols + cols := by omega
    _ = (r + 1) * cols := by ring
    _ ≤ rows * cols := Nat.mul_le_mul_right _ hr
  have hbound : 8 * (r * cols + c) + 8 ≤ buf.length := by
    rw [hlen]
    calc 8 * (r * cols + c) + 8 = 8 * (r * cols + c + 1) := by ring
    _ ≤ 8 * (rows * cols) := Nat.mul_le_mul_left _ hcell
    _ = rows * cols * 8 := by ring
  obtain ⟨b0, b1, b2, b3, b4, b5, b6, b7, tail, hd, hv⟩ :=
    chunk8_getD (r * cols + c) buf hbound
  have hinit : ImageData.fromBytes buf rows cols =
      some
        { n_rows := rows
          n_cols := cols
          array :=
            (List.range rows).map fun r =>
              (List.range cols).map fun c =>
                let w := (chunk8 buf).getD (r * cols + c) (0, 0)
                (f32_of_bits w.1, f32_of_bits w.2) } := by
    simp [ImageData.fromBytes, hsz]
  refine ⟨_, b0, b1, b2, b3, b4, b5, b6, b7, tail, hinit, rfl, rfl, ?_, hd, ?_⟩
  · simp
  · have hrow :
        ((List.range rows).map fun r =>
          (List.range cols).map fun c =>
            let w := (chunk8 buf).getD (r * cols + c) (0, 0)
            (f32_of_bits w.1, f32_of_bits w.2)).getD r [] =
          (List.range cols).map fun c =>
            let w := (chunk8 buf).getD (r * cols + c) (0, 0)
            (f32_of_bits w.1, f32_of_bits w.2) := by
      rw [List.getD_eq_getElem?_getD, List.getElem?_map, List.getElem?_range hr]
      rfl
    rw [List.getD_eq_getElem?_getD] at hv
    have hv' : (chunk8 buf)[r * cols + c]?.getD 0 =
        (beWord b0 b1 b2 b3, beWord b4 b5 b6 b7) := hv
    rw [hrow, List.getD_eq_getElem?_getD, List.getElem?_map,
      List.getElem?_range hc]
    simp [hv']

/-- Witness for C5: the 2×2 decode of the 32-byte buffer `exBuf` built
from the four chosen complex values `(1.0, 2.0)`, `(-3.5, 0.25)`,
`(5.0, -1.0)`, `(0.5, 100.0)` — instantiating the theorem at cell
`(1, 0)` — returns exactly those four values at their row/column
positions (in units of `2 ^ (-149)`: `1.0 = 2^149` etc.). -/
theorem c5_witness :
    exBuf.length = 2 * 2 * 8 ∧
    ImageData.fromBytes exBuf 2 2 =
      some ⟨2, 2,
        [[(.finite (2 ^ 149), .finite (2 ^ 150)),
          (.finite (-(7 * 2 ^ 148)), .finite (2 ^ 147))],
         [(.finite (5 * 2 ^ 149), .finite (-(2 ^ 149))),
          (.finite (2 ^ 148), .finite (25 * 2 ^ 151))]]⟩ ∧
    (∃ img b0 b1 b2 b3 b4 b5 b6 b7 tail,
      ImageData.fromBytes exBuf 2 2 = some img ∧
      img.n_rows = 2 ∧ img.n_cols = 2 ∧ img.array.length = 2 ∧
      exBuf.drop (8 * (1 * 2 + 0)) =
        b0 :: b1 :: b2 :: b3 :: b4 :: b5 :: b6 :: b7 :: tail ∧
      (img.array.getD 1 []).getD 0 (.nan, .nan) =
        (f32_of_bits (beWord b0 b1 b2 b3), f32_of_bits (beWord b4 b5 b6 b7))) :=
  ⟨by decide, by decide,
   c5_decode_layout exBuf 2 2 1 0 (by decide) (by decide) (by decide)⟩

/-- Claim C6: every resolved version in the 1.x range (1.0.0 through
1.3.0) is routed by the dispatch `match` to the single shared 1.x schema
target (`SicdMeta::V1` built by the one shared deserializer), and for any
two versions in that range and equal input text the dispatch results are
structurally equal modulo the version tag. -/
theorem c6_shared_v1_dispatch (p40 : Deser MetaV0_4_0)
    (p50 : Deser MetaV0_5_0) (p1 : Deser MetaV1) (v w : SicdVersion)
    (s : String) (hv : isV1Range v = true) (hw : isV1Range w = true) :
    (dispatch p40 p50 p1 v s =
      match p1 s with
      | some m => .ok (v, .V1 m)
      | none => .panic (.otherPanic "deserialization failed")) ∧
    metaPart (dispatch p40 p50 p1 v s) = metaPart (dispatch p40 p50 p1 w s) := by
  cases hps : p1 s <;> cases v <;> cases w <;>
    simp_all [isV1Range, dispatch, metaPart]

/-- Witness for C6: instantiated at versions 1.0.0 and 1.3.0 with a
concrete deserializer and text. -/
theorem c6_witness :
    (isV1Range .V1_0_0 = true ∧ isV1Range .V1_3_0 = true) ∧
    ((dispatch p40None p50None p1Ex .V1_0_0 exText =
      match p1Ex exText with
      | some m => .ok (.V1_0_0, .V1 m)
      | none => .panic (.otherPanic "deserialization failed")) ∧
    metaPart (dispatch p40None p50None p1Ex .V1_0_0 exText) =
      metaPart (dispatch p40None p50None p1Ex .V1_3_0 exText)) :=
  ⟨⟨rfl, rfl⟩,
   c6_shared_v1_dispatch p40None p50None p1Ex .V1_0_0 .V1_3_0 exText rfl rfl⟩

/-- Claim C7: for the two versions flagged not implemented (0.3.1 and
0.4.1) and every metadata text, dispatch fails with the `Unimpl` error
carrying that version's identifier, and never invokes any deserializer
(the result is identical for arbitrary deserializer triples). -/
theorem c7_unimplemented_dispatch (p40 : Deser MetaV0_4_0)
    (p50 : Deser MetaV0_5_0) (p1 : Deser MetaV1) (q40 : Deser MetaV0_4_0)
    (q50 : Deser MetaV0_5_0) (q1 : Deser MetaV1) (s : String) :
    dispatch p40 p50 p1 .V0_3_1 s = .err (.Unimpl "V0_3_1") ∧
    dispatch p40 p50 p1 .V0_4_1 s = .err (.Unimpl "V0_4_1") ∧
    dispatch p40 p50 p1 .V0_3_1 s = dispatch q40 q50 q1 .V0_3_1 s ∧
    dispatch p40 p50 p1 .V0_4_1 s = dispatch q40 q50 q1 .V0_4_1 s :=
  ⟨rfl, rfl, rfl, rfl⟩

/-- Claim C8, counterexample against the spec's description: on the token
`"urn:SICD:urn:SICD:1.0.0"` the resolver of the source returns
`Ok(V1_0_0)` (it deletes every occurrence of the marker), while the
spec-described resolver — strip one fixed URN prefix, then exact-match
lookup — fails with a `VersionError`: the two disagree. -/
theorem c8_counterexample :
    SicdVersion.from_str "urn:SICD:urn:SICD:1.0.0" = .ok .V1_0_0 ∧
    resolveSpec "urn:SICD:urn:SICD:1.0.0" =
      .error (.VersionError "urn:SICD:urn:SICD:1.0.0") ∧
    stripUrnLeading "urn:SICD:urn:SICD:1.0.0" = "urn:SICD:1.0.0" :=
  ⟨by rfl, by rfl, by rfl⟩

/-- Claim C8, amended: for every input token, the resolver's result
equals deleting every (non-overlapping, leftmost-first) occurrence of the
fixed URN marker from the token and then performing an exact-match lookup
against the fixed table of ten known version strings, with failure
carrying the original token; tokens that do not reduce to a table entry
under that deletion never resolve to a VersionId. -/
theorem c8_resolver_removes_all (s : String) :
    SicdVersion.from_str s = resolveAmended s := by
  unfold SicdVersion.from_str resolveAmended
  split
  case h_11 =>
    next h1 h2 h3 h4 h5 h6 h7 h8 h9 h10 =>
      have e1 : (stripUrn s == "0.3.1") = false := beq_eq_false_iff_ne.mpr h1
      have e2 : (stripUrn s == "0.4.0") = false := beq_eq_false_iff_ne.mpr h2
      have e3 : (stripUrn s == "0.4.1") = false := beq_eq_false_iff_ne.mpr h3
      have e4 : (stripUrn s == "0.5.0") = false := beq_eq_false_iff_ne.mpr h4
      have e5 : (stripUrn s == "1.0.0") = false := beq_eq_false_iff_ne.mpr h5
      have e6 : (stripUrn s == "1.0.1") = false := beq_eq_false_iff_ne.mpr h6
      have e7 : (stripUrn s == "1.1.0") = false := beq_eq_false_iff_ne.mpr h7
      have e8 : (stripUrn s == "1.2.0") = false := beq_eq_false_iff_ne.mpr h8
      have e9 : (stripUrn s == "1.2.1") = false := beq_eq_false_iff_ne.mpr h9
      have e10 : (stripUrn s == "1.3.0") = false := beq_eq_false_iff_ne.mpr h10
      simp [versionTable, List.lookup, e1, e2, e3, e4, e5, e6, e7, e8, e9, e10]
  all_goals simp_all [versionTable, List.lookup]

/-- Claim C9: each version-specific accessor of `SicdMeta` returns the
stored metadata exactly when the stored variant matches the accessor's
version and an absent result otherwise, never a wrong-type value; the
accessors for the two unimplemented versions always return the `Unimpl`
error. -/
theorem c9_accessors (m : SicdMeta) :
    (∀ x, m.get_v0_4_0_meta = some x ↔ m = .V0_4_0 x) ∧
    (∀ x, m.get_v0_5_0_meta = some x ↔ m = .V0_5_0 x) ∧
    (∀ x, m.get_v1_meta = some x ↔ m = .V1 x) ∧
    m.get_v0_3_1_meta = .Unimpl "0.3.1" ∧
    m.get_v0_4_1_meta = .Unimpl "0.4.1" := by
  cases m <;>
    simp [SicdMeta.get_v0_4_0_meta, SicdMeta.get_v0_5_0_meta,
      SicdMeta.get_v1_meta, SicdMeta.get_v0_3_1_meta, SicdMeta.get_v0_4_1_meta]

/-- Claim C10: whenever `parse_sicd` returns successfully, the returned
metadata is a fully populated variant — the empty marker variants
`SicdMeta::V0_3_1` and `SicdMeta::V0_4_1` are never constructed — and for
inputs resolving to versions 0.3.1 or 0.4.1 `parse_sicd` returns the
`Unimpl` error instead. -/
theorem c10_no_marker_variants :
    (∀ (gx : Deser String) (p40 : Deser MetaV0_4_0) (p50 : Deser MetaV0_5_0)
        (p1 : Deser MetaV1) (s : String) (v : SicdVersion) (m : SicdMeta),
      parse_sicd gx p40 p50 p1 s = .ok (v, m) →
      m ≠ .V0_3_1 ∧ m ≠ .V0_4_1) ∧
    (∀ (gx : Deser String) (p40 : Deser MetaV0_4_0) (p50 : Deser MetaV0_5_0)
        (p1 : Deser MetaV1) (s tok : String),
      gx s = some tok → SicdVersion.from_str tok = .ok .V0_3_1 →
      parse_sicd gx p40 p50 p1 s = .err (.Unimpl "V0_3_1")) ∧
    (∀ (gx : Deser String) (p40 : Deser MetaV0_4_0) (p50 : Deser MetaV0_5_0)
        (p1 : Deser MetaV1) (s tok : String),
      gx s = some tok → SicdVersion.from_str tok = .ok .V0_4_1 →
      parse_sicd gx p40 p50 p1 s = .err (.Unimpl "V0_4_1")) := by
  refine ⟨?_, ?_, ?_⟩
  · intro gx p40 p50 p1 s v m h
    rcases hgx : gx s with _ | tok
    · simp only [parse_sicd, hgx] at h
      simp at h
    simp only [parse_sicd, hgx] at h
    rcases hv : SicdVersion.from_str tok with e | v'
    · simp only [hv] at h
      simp at h
    simp only [hv] at h
    cases v' <;> simp only [dispatch] at h
    case V0_3_1 => simp at h
    case V0_4_1 => simp at h
    all_goals
      split at h
      · simp only [Outcome.ok.injEq, Prod.mk.injEq] at h
        obtain ⟨h1, h2⟩ := h
        subst h2
        simp
      · simp at h
  · intro gx p40 p50 p1 s tok h1 h2
    simp only [parse_sicd, h1, h2, dispatch]
  · intro gx p40 p50 p1 s tok h1 h2
    simp only [parse_sicd, h1, h2, dispatch]

/-- Witness for C10: instantiated at a concrete successful parse (for the
first part) and at concrete extractors resolving to 0.3.1 and 0.4.1. -/
theorem c10_witness :
    (parse_sicd gxEx p40None p50None p1Ex exText =
        .ok (.V1_3_0, .V1 ⟨exText⟩) ∧
      SicdMeta.V1 ⟨exText⟩ ≠ .V0_3_1 ∧ SicdMeta.V1 ⟨exText⟩ ≠ .V0_4_1) ∧
    ((fun _ => some "0.3.1" : Deser String) exText = some "0.3.1" ∧
      SicdVersion.from_str "0.3.1" = .ok .V0_3_1 ∧
      parse_sicd (fun _ => some "0.3.1") p40None p50None p1Ex exText =
        .err (.Unimpl "V0_3_1")) ∧
    ((fun _ => some "0.4.1" : Deser String) exText = some "0.4.1" ∧
      SicdVersion.from_str "0.4.1" = .ok .V0_4_1 ∧
      parse_sicd (fun _ => some "0.4.1") p40None p50None p1Ex exText =
        .err (.Unimpl "V0_4_1")) :=
  ⟨⟨by rfl,
    c10_no_marker_variants.1 gxEx p40None p50None p1Ex exText .V1_3_0
      (.V1 ⟨exText⟩) (by rfl)⟩,
   ⟨rfl, by rfl,
    c10_no_marker_variants.2.1 (fun _ => some "0.3.1") p40None p50None p1Ex
      exText "0.3.1" rfl (by rfl)⟩,
   ⟨rfl, by rfl,
    c10_no_marker_variants.2.2 (fun _ => some "0.4.1") p40None p50None p1Ex
      exText "0.4.1" rfl (by rfl)⟩⟩

end SicdRs
